import Mathlib

/-!
Shallow embedding of the bench-press rep-judgment engine of
`ml-backend/app/logic.py` (class `WorkoutAnalyzer`, method `analyze_video`).

Video decoding, YOLO detection and MediaPipe pose estimation are external
collaborators: a frame is modelled as the optional detections they yield
(`FrameInput`).  Pixel coordinates are rationals.  Python exceptions
(the unguarded `frame_idx / fps` division) are modelled with `Except`.
Optional values are `Option`; a Python truthiness test on a float is a
test against `0`, on an `Optional` box a test against `None` (a non-empty
tuple is always truthy).
-/

/-- Configuration constants of logic.py. -/
def HIP_LIFT_RATIO : ℚ := 1 / 2

def SHALLOW_REP_RATIO : ℚ := 5 / 100

def SMOOTHING_WINDOW_SIZE : Nat := 5

def STATUS_OK : String := "OK"

def STATUS_FAIL_HIP : String := "FAIL: HIP LIFT"

def STATUS_FAIL_SHALLOW : String := "FAIL: ELBOW DEPTH"

def STATUS_GOOD_REP : String := "GOOD REP"

def STATUS_EGO_LIFT : String := "EGO LIFT"

/-- Pose landmarks derived per frame when MediaPipe detects a pose:
`current_hip_y`, `current_elbow_y`, `current_shoulder_y` (all set together
inside `if pose_results.pose_landmarks:`). -/
structure Pose where
  hip_y : ℚ
  elbow_y : ℚ
  shoulder_y : ℚ
  deriving DecidableEq, Repr

/-- A detection box; only the top edge (`box[1]`) of the bench and the
bottom edge (`box[3]`) of the bar are consumed by the judgment logic. -/
structure Box where
  top : ℚ
  bottom : ℚ
  deriving DecidableEq, Repr

/-- The per-frame inputs the engine consumes from its collaborators. -/
structure FrameInput where
  bench_box : Option Box
  bar_box : Option Box
  pose : Option Pose
  deriving DecidableEq, Repr

/-- The rep-tracker instance attributes of `WorkoutAnalyzer` (`self.is_in_rep`,
`self.min_bar_shoulder_dist`, `self.min_elbow_y_at_bottom`): set in
`__init__`, reset only when a rep ends, NOT reset at the start of
`analyze_video`. -/
structure TrackerState where
  is_in_rep : Bool
  min_bar_shoulder_dist : ℚ
  min_elbow_y_at_bottom : ℚ
  deriving DecidableEq, Repr

/-- The tracker as `__init__` leaves it (lines 60-62 of logic.py). -/
def initTracker : TrackerState :=
  { is_in_rep := false, min_bar_shoulder_dist := 1000, min_elbow_y_at_bottom := 2000 }

/-- The local analysis state of one `analyze_video` call (lines 118-126):
baseline, fault statuses, elbow smoothing buffer, plus the instance tracker. -/
structure RunState where
  baseline_hip_bench_dist : Option ℚ
  dynamic_hip_threshold : Option ℚ
  hip_lift_status : String
  shallow_rep_status : String
  elbow_y_buffer : List ℚ
  tracker : TrackerState
  deriving DecidableEq, Repr

/-- The local-variable initialisation at the top of `analyze_video`; the
tracker is whatever the instance already holds. -/
def initRunState (tr : TrackerState) : RunState :=
  { baseline_hip_bench_dist := none
    dynamic_hip_threshold := none
    hip_lift_status := STATUS_OK
    shallow_rep_status := STATUS_OK
    elbow_y_buffer := []
    tracker := tr }

/-- `elbow_y_buffer.append(x)` on a `deque(maxlen=SMOOTHING_WINDOW_SIZE)`:
append on the right, evicting from the left whatever exceeds the bound. -/
def pushWindow (l : List ℚ) (x : ℚ) : List ℚ :=
  let l2 := l ++ [x]
  if l2.length ≤ SMOOTHING_WINDOW_SIZE then l2 else l2.drop (l2.length - SMOOTHING_WINDOW_SIZE)

/-- `sum(buffer) / len(buffer)` (line 204). -/
def listMean (l : List ℚ) : ℚ := l.sum / l.length

/-- Line 232: `abs(current_shoulder_y - current_hip_y) if current_shoulder_y
and current_hip_y else 100`.  Python tests the truthiness of the floats, so
the fallback fires when either coordinate equals 0.0, not when it is absent
(at this point both are present floats). -/
def torsoLength (p : Pose) : ℚ :=
  if p.shoulder_y ≠ 0 ∧ p.hip_y ≠ 0 then |p.shoulder_y - p.hip_y| else 100

/-- Line 233: `dynamic_shallow_threshold = avg_torso_length * SHALLOW_REP_RATIO`. -/
def dynamicShallowThreshold (p : Pose) : ℚ := torsoLength p * SHALLOW_REP_RATIO

/-- Guard of the REP START rule (line 236). -/
def startCond (tr : TrackerState) (dist : ℚ) : Prop :=
  ¬tr.is_in_rep ∧ dist < tr.min_bar_shoulder_dist - 30

/-- Guard of the REP IN-PROGRESS rule (line 242). -/
def extendCond (tr : TrackerState) (dist : ℚ) : Prop :=
  tr.is_in_rep ∧ dist < tr.min_bar_shoulder_dist

/-- Guard of the REP END rule (line 247). -/
def endCond (tr : TrackerState) (dist : ℚ) : Prop :=
  tr.is_in_rep ∧ dist > tr.min_bar_shoulder_dist + 30

instance (tr : TrackerState) (dist : ℚ) : Decidable (startCond tr dist) := by
  unfold startCond; infer_instance

instance (tr : TrackerState) (dist : ℚ) : Decidable (extendCond tr dist) := by
  unfold extendCond; infer_instance

instance (tr : TrackerState) (dist : ℚ) : Decidable (endCond tr dist) := by
  unfold endCond; infer_instance

/-- The hip-lift block (lines 207-221), entered when a pose and a bench box
are both present.  `d` is `abs(current_hip_y - avg_bench_top_y)`. -/
def hipLiftStep (st : RunState) (d : ℚ) : RunState :=
  let st1 :=
    if st.baseline_hip_bench_dist = none then
      { st with baseline_hip_bench_dist := some d
                dynamic_hip_threshold := some (d * HIP_LIFT_RATIO) }
    else st
  match st1.baseline_hip_bench_dist, st1.dynamic_hip_threshold with
  | some b, some t =>
      if d > b + t then { st1 with hip_lift_status := STATUS_FAIL_HIP } else st1
  | _, _ => st1

/-- The shallow-rep state machine (lines 224-256), entered when a pose and a
bar box are both present.  `smoothed` is this frame's smoothed elbow y. -/
def shallowStep (st : RunState) (p : Pose) (smoothed : ℚ) (bar_bottom : ℚ)
    (bench : Option Box) : RunState :=
  let dist := |bar_bottom - p.shoulder_y|
  if startCond st.tracker dist then
    { st with tracker :=
        { is_in_rep := true, min_bar_shoulder_dist := dist,
          min_elbow_y_at_bottom := smoothed } }
  else if extendCond st.tracker dist then
    { st with tracker :=
        { st.tracker with min_bar_shoulder_dist := dist,
                          min_elbow_y_at_bottom := smoothed } }
  else if endCond st.tracker dist then
    let st1 :=
      match bench with
      | some bx =>
          if st.tracker.min_elbow_y_at_bottom > bx.top + dynamicShallowThreshold p then
            { st with shallow_rep_status := STATUS_FAIL_SHALLOW }
          else st
      | none => st
    { st1 with tracker := initTracker }
  else st

/-- One iteration of the per-frame analysis loop (state part, lines 202-256):
nothing happens without a pose; with a pose the elbow is smoothed, then the
hip-lift block runs if a bench box is present, then the rep state machine
runs if a bar box is present. -/
def processFrame (st : RunState) (inp : FrameInput) : RunState :=
  match inp.pose with
  | none => st
  | some p =>
      let buf := pushWindow st.elbow_y_buffer p.elbow_y
      let smoothed := listMean buf
      let st1 := { st with elbow_y_buffer := buf }
      let st2 :=
        match inp.bench_box with
        | some bx => hipLiftStep st1 (|p.hip_y - bx.top|)
        | none => st1
      match inp.bar_box with
      | some bar => shallowStep st2 p smoothed bar.bottom inp.bench_box
      | none => st2

/-- One recorded frame of `time_series_data` (lines 259-267). -/
structure FrameRecord where
  frame : Nat
  timestamp : ℚ
  hip_y : Option ℚ
  elbow_y : Option ℚ
  shoulder_y : Option ℚ
  bench_detected : Bool
  bar_detected : Bool
  deriving DecidableEq, Repr

/-- `float(v) if v else None`: a coordinate is stored as null when it is
absent OR when the float is falsy, i.e. exactly 0.0. -/
def recordCoord (v : Option ℚ) : Option ℚ :=
  match v with
  | some x => if x ≠ 0 then some x else none
  | none => none

/-- `frame_idx / fps` (line 261): Python raises `ZeroDivisionError` when
`fps = 0`; modelled as `none`. -/
def frameTimestamp (frame_idx : Nat) (fps : ℤ) : Option ℚ :=
  if fps = 0 then none else some ((frame_idx : ℚ) / (fps : ℚ))

/-- Building one `time_series_data` entry (lines 259-267); fails exactly when
the timestamp division fails. -/
def makeRecord (frame_idx : Nat) (fps : ℤ) (inp : FrameInput) : Option FrameRecord :=
  match frameTimestamp frame_idx fps with
  | none => none
  | some ts =>
      some { frame := frame_idx
             timestamp := ts
             hip_y := recordCoord (inp.pose.map Pose.hip_y)
             elbow_y := recordCoord (inp.pose.map Pose.elbow_y)
             shoulder_y := recordCoord (inp.pose.map Pose.shoulder_y)
             bench_detected := inp.bench_box.isSome
             bar_detected := inp.bar_box.isSome }

/-- The analysis loop over the frames of the video: advances the state and
appends one record per frame; aborts with the Python exception on a
timestamp division by zero.  `idx` counts frames already processed. -/
def runFrames (fps : ℤ) : Nat → RunState → List FrameRecord → List FrameInput →
    Except String (RunState × List FrameRecord)
  | _, st, recs, [] => Except.ok (st, recs)
  | idx, st, recs, inp :: rest =>
      let st1 := processFrame st inp
      match makeRecord (idx + 1) fps inp with
      | none => Except.error "ZeroDivisionError: division by zero"
      | some r => runFrames fps (idx + 1) st1 (recs ++ [r]) rest

/-- The final result dictionary of `analyze_video` (lines 330-346). -/
structure AnalysisResult where
  overall_status : String
  hip_lift_status : String
  shallow_rep_status : String
  hip_lift_detected : Bool
  shallow_rep_detected : Bool
  time_series_data : List FrameRecord
  total_frames : Nat
  fps : ℤ
  video_duration : ℚ
  deriving DecidableEq, Repr

/-- `analyze_video`, judgment core: consumes the per-frame detections,
returns the result dictionary and the tracker state the instance keeps
afterwards, or the propagated exception.  `tr` is the tracker state the
instance holds on entry; `total_frames` and `fps` come from the video
metadata. -/
def analyze_video (tr : TrackerState) (fps : ℤ) (total_frames : Nat)
    (frames : List FrameInput) : Except String (AnalysisResult × TrackerState) :=
  match runFrames fps 0 (initRunState tr) [] frames with
  | Except.error e => Except.error e
  | Except.ok (st, recs) =>
      let overall :=
        if st.hip_lift_status ≠ STATUS_OK ∨ st.shallow_rep_status ≠ STATUS_OK then
          STATUS_EGO_LIFT
        else STATUS_GOOD_REP
      Except.ok
        ({ overall_status := overall
           hip_lift_status := st.hip_lift_status
           shallow_rep_status := st.shallow_rep_status
           hip_lift_detected := decide (st.hip_lift_status ≠ STATUS_OK)
           shallow_rep_detected := decide (st.shallow_rep_status ≠ STATUS_OK)
           time_series_data := recs
           total_frames := total_frames
           fps := fps
           video_duration := if fps > 0 then (total_frames : ℚ) / (fps : ℚ) else 0 },
         st.tracker)

/-! ### Helper lemmas about the per-frame step functions -/

theorem hipLiftStep_tracker (st : RunState) (d : ℚ) :
    (hipLiftStep st d).tracker = st.tracker := by
  rcases hb : st.baseline_hip_bench_dist with _ | b <;>
  rcases ht : st.dynamic_hip_threshold with _ | t <;>
    simp only [hipLiftStep, hb, ht] <;> (try split_ifs) <;> simp_all <;>
    (try split_ifs) <;> simp_all

theorem hipLiftStep_shallow (st : RunState) (d : ℚ) :
    (hipLiftStep st d).shallow_rep_status = st.shallow_rep_status := by
  rcases hb : st.baseline_hip_bench_dist with _ | b <;>
  rcases ht : st.dynamic_hip_threshold with _ | t <;>
    simp only [hipLiftStep, hb, ht] <;> (try split_ifs) <;> simp_all <;>
    (try split_ifs) <;> simp_all

theorem hipLiftStep_buffer (st : RunState) (d : ℚ) :
    (hipLiftStep st d).elbow_y_buffer = st.elbow_y_buffer := by
  rcases hb : st.baseline_hip_bench_dist with _ | b <;>
  rcases ht : st.dynamic_hip_threshold with _ | t <;>
    simp only [hipLiftStep, hb, ht] <;> (try split_ifs) <;> simp_all <;>
    (try split_ifs) <;> simp_all

theorem hipLiftStep_hip_sticky (st : RunState) (d : ℚ)
    (h : st.hip_lift_status = STATUS_FAIL_HIP) :
    (hipLiftStep st d).hip_lift_status = STATUS_FAIL_HIP := by
  rcases hb : st.baseline_hip_bench_dist with _ | b <;>
  rcases ht : st.dynamic_hip_threshold with _ | t <;>
    simp only [hipLiftStep, hb, ht] <;> (try split_ifs) <;> simp_all <;>
    (try split_ifs) <;> simp_all

theorem hipLiftStep_baseline_some (st : RunState) (b0 : ℚ) (d : ℚ)
    (h : st.baseline_hip_bench_dist = some b0) :
    (hipLiftStep st d).baseline_hip_bench_dist = some b0 := by
  rcases ht : st.dynamic_hip_threshold with _ | t <;>
    simp only [hipLiftStep, h, ht] <;> (try split_ifs) <;> simp_all <;>
    (try split_ifs) <;> simp_all

theorem hipLiftStep_threshold_some (st : RunState) (b0 t0 : ℚ) (d : ℚ)
    (h : st.dynamic_hip_threshold = some t0) (hb : st.baseline_hip_bench_dist = some b0) :
    (hipLiftStep st d).dynamic_hip_threshold = some t0 := by
  simp only [hipLiftStep, h, hb] <;> (try split_ifs) <;> simp_all <;>
    (try split_ifs) <;> simp_all

theorem shallowStep_hip (st : RunState) (p : Pose) (s bb : ℚ) (bench : Option Box) :
    (shallowStep st p s bb bench).hip_lift_status = st.hip_lift_status := by
  rcases bench with _ | bx <;>
    simp only [shallowStep] <;> (try split_ifs) <;> simp_all

theorem shallowStep_baseline (st : RunState) (p : Pose) (s bb : ℚ) (bench : Option Box) :
    (shallowStep st p s bb bench).baseline_hip_bench_dist = st.baseline_hip_bench_dist := by
  rcases bench with _ | bx <;>
    simp only [shallowStep] <;> (try split_ifs) <;> simp_all

theorem shallowStep_threshold (st : RunState) (p : Pose) (s bb : ℚ) (bench : Option Box) :
    (shallowStep st p s bb bench).dynamic_hip_threshold = st.dynamic_hip_threshold := by
  rcases bench with _ | bx <;>
    simp only [shallowStep] <;> (try split_ifs) <;> simp_all

theorem shallowStep_buffer (st : RunState) (p : Pose) (s bb : ℚ) (bench : Option Box) :
    (shallowStep st p s bb bench).elbow_y_buffer = st.elbow_y_buffer := by
  rcases bench with _ | bx <;>
    simp only [shallowStep] <;> (try split_ifs) <;> simp_all

theorem shallowStep_shallow_sticky (st : RunState) (p : Pose) (s bb : ℚ)
    (bench : Option Box) (h : st.shallow_rep_status = STATUS_FAIL_SHALLOW) :
    (shallowStep st p s bb bench).shallow_rep_status = STATUS_FAIL_SHALLOW := by
  rcases bench with _ | bx <;>
    simp only [shallowStep] <;> (try split_ifs) <;> simp_all

theorem processFrame_no_pose (st : RunState) (inp : FrameInput)
    (h : inp.pose = none) : processFrame st inp = st := by
  simp [processFrame, h]

theorem processFrame_hip_sticky (st : RunState) (inp : FrameInput)
    (h : st.hip_lift_status = STATUS_FAIL_HIP) :
    (processFrame st inp).hip_lift_status = STATUS_FAIL_HIP := by
  rcases hp : inp.pose with _ | p
  · simp [processFrame, hp, h]
  · rcases hb : inp.bench_box with _ | bx <;> rcases hr : inp.bar_box with _ | bar <;>
      simp [processFrame, hp, hb, hr, shallowStep_hip, hipLiftStep_hip_sticky, h]

theorem processFrame_shallow_sticky (st : RunState) (inp : FrameInput)
    (h : st.shallow_rep_status = STATUS_FAIL_SHALLOW) :
    (processFrame st inp).shallow_rep_status = STATUS_FAIL_SHALLOW := by
  rcases hp : inp.pose with _ | p
  · simp [processFrame, hp, h]
  · rcases hb : inp.bench_box with _ | bx <;> rcases hr : inp.bar_box with _ | bar <;>
      simp [processFrame, hp, hb, hr, shallowStep_shallow_sticky, hipLiftStep_shallow, h]

theorem processFrame_baseline_some (st : RunState) (inp : FrameInput) (b0 : ℚ)
    (h : st.baseline_hip_bench_dist = some b0) :
    (processFrame st inp).baseline_hip_bench_dist = some b0 := by
  rcases hp : inp.pose with _ | p
  · simp [processFrame, hp, h]
  · rcases hb : inp.bench_box with _ | bx <;> rcases hr : inp.bar_box with _ | bar <;>
      simp [processFrame, hp, hb, hr, shallowStep_baseline, hipLiftStep_baseline_some, h]

theorem processFrame_threshold_some (st : RunState) (inp : FrameInput) (b0 t0 : ℚ)
    (ht : st.dynamic_hip_threshold = some t0) (h : st.baseline_hip_bench_dist = some b0) :
    (processFrame st inp).dynamic_hip_threshold = some t0 := by
  rcases hp : inp.pose with _ | p
  · simp [processFrame, hp, ht]
  · rcases hb : inp.bench_box with _ | bx <;> rcases hr : inp.bar_box with _ | bar <;>
      simp [processFrame, hp, hb, hr, shallowStep_threshold, hipLiftStep_threshold_some,
        ht, h]

theorem processFrame_no_bench_hip_state (st : RunState) (inp : FrameInput)
    (h : inp.bench_box = none) :
    (processFrame st inp).baseline_hip_bench_dist = st.baseline_hip_bench_dist ∧
    (processFrame st inp).dynamic_hip_threshold = st.dynamic_hip_threshold ∧
    (processFrame st inp).hip_lift_status = st.hip_lift_status := by
  rcases hp : inp.pose with _ | p
  · simp [processFrame, hp]
  · rcases hr : inp.bar_box with _ | bar <;>
      simp [processFrame, hp, h, hr, shallowStep_baseline, shallowStep_threshold,
        shallowStep_hip]

theorem processFrame_buffer (st : RunState) (inp : FrameInput) :
    (processFrame st inp).elbow_y_buffer =
      (match inp.pose with
       | some p => pushWindow st.elbow_y_buffer p.elbow_y
       | none => st.elbow_y_buffer) := by
  rcases hp : inp.pose with _ | p
  · simp [processFrame, hp]
  · rcases hb : inp.bench_box with _ | bx <;> rcases hr : inp.bar_box with _ | bar <;>
      simp [processFrame, hp, hb, hr, shallowStep_buffer, hipLiftStep_buffer]

theorem foldl_hip_sticky (frames : List FrameInput) (st : RunState)
    (h : st.hip_lift_status = STATUS_FAIL_HIP) :
    (frames.foldl processFrame st).hip_lift_status = STATUS_FAIL_HIP := by
  induction frames generalizing st with
  | nil => simpa using h
  | cons f fs ih => simpa using ih _ (processFrame_hip_sticky st f h)

theorem foldl_shallow_sticky (frames : List FrameInput) (st : RunState)
    (h : st.shallow_rep_status = STATUS_FAIL_SHALLOW) :
    (frames.foldl processFrame st).shallow_rep_status = STATUS_FAIL_SHALLOW := by
  induction frames generalizing st with
  | nil => simpa using h
  | cons f fs ih => simpa using ih _ (processFrame_shallow_sticky st f h)

theorem foldl_no_bench_hip_status (frames : List FrameInput) (st : RunState)
    (h : ∀ f ∈ frames, f.bench_box = none) :
    (frames.foldl processFrame st).hip_lift_status = st.hip_lift_status := by
  induction frames generalizing st with
  | nil => simp
  | cons f fs ih =>
      have hf : f.bench_box = none := h f (by simp)
      have hrest : ∀ g ∈ fs, g.bench_box = none := fun g hg => h g (by simp [hg])
      calc (List.foldl processFrame st (f :: fs)).hip_lift_status
          = (List.foldl processFrame (processFrame st f) fs).hip_lift_status := by simp
        _ = (processFrame st f).hip_lift_status := ih _ hrest
        _ = st.hip_lift_status := (processFrame_no_bench_hip_state st f hf).2.2

theorem runFrames_ok_state (fps : ℤ) (frames : List FrameInput) :
    ∀ (idx : Nat) (st : RunState) (recs : List FrameRecord)
      (p : RunState × List FrameRecord),
      runFrames fps idx st recs frames = Except.ok p →
      p.1 = frames.foldl processFrame st := by
  induction frames with
  | nil =>
      intro idx st recs p h
      simp only [runFrames, Except.ok.injEq] at h
      simp [← h]
  | cons f fs ih =>
      intro idx st recs p h
      rw [runFrames] at h
      cases hm : makeRecord (idx + 1) fps f with
      | none => rw [hm] at h; cases h
      | some r =>
          rw [hm] at h
          simpa using ih _ _ _ _ h

theorem analyze_video_ok_spec (tr : TrackerState) (fps : ℤ) (total : Nat)
    (frames : List FrameInput) (res : AnalysisResult × TrackerState)
    (h : analyze_video tr fps total frames = Except.ok res) :
    res.1.hip_lift_status = (frames.foldl processFrame (initRunState tr)).hip_lift_status ∧
    res.1.shallow_rep_status =
      (frames.foldl processFrame (initRunState tr)).shallow_rep_status ∧
    res.1.video_duration = (if fps > 0 then (total : ℚ) / (fps : ℚ) else 0) ∧
    res.2 = (frames.foldl processFrame (initRunState tr)).tracker := by
  unfold analyze_video at h
  cases hrun : runFrames fps 0 (initRunState tr) [] frames with
  | error e => rw [hrun] at h; cases h
  | ok p =>
      obtain ⟨st, recs⟩ := p
      rw [hrun] at h
      have hst : st = frames.foldl processFrame (initRunState tr) :=
        runFrames_ok_state fps frames 0 (initRunState tr) [] (st, recs) hrun
      simp only [Except.ok.injEq] at h
      subst h
      simp [← hst]

theorem hipLiftStep_calibrate (st : RunState) (d : ℚ) (hd : 0 ≤ d)
    (h : st.baseline_hip_bench_dist = none) :
    (hipLiftStep st d).baseline_hip_bench_dist = some d ∧
    (hipLiftStep st d).dynamic_hip_threshold = some (d * HIP_LIFT_RATIO) ∧
    (hipLiftStep st d).hip_lift_status = st.hip_lift_status := by
  have hnot : ¬d > d + d * HIP_LIFT_RATIO := by
    unfold HIP_LIFT_RATIO
    nlinarith
  simp only [hipLiftStep, h, if_pos rfl]
  simp [hnot]

theorem shallowStep_end (st : RunState) (p : Pose) (s bb : ℚ) (bench : Option Box)
    (hend : endCond st.tracker (|bb - p.shoulder_y|)) :
    (shallowStep st p s bb bench).tracker = initTracker ∧
    (bench = none →
      (shallowStep st p s bb bench).shallow_rep_status = st.shallow_rep_status) ∧
    (∀ bx, bench = some bx →
      (shallowStep st p s bb bench).shallow_rep_status =
        (if st.tracker.min_elbow_y_at_bottom > bx.top + dynamicShallowThreshold p then
          STATUS_FAIL_SHALLOW
        else st.shallow_rep_status)) := by
  have hin : st.tracker.is_in_rep = true := by
    have := hend.1
    simpa using this
  have hgt := hend.2
  have hnstart : ¬startCond st.tracker (|bb - p.shoulder_y|) := by
    intro hc
    exact absurd hin (by simpa using hc.1)
  have hnext : ¬extendCond st.tracker (|bb - p.shoulder_y|) := by
    intro hc
    have := hc.2
    linarith
  rcases bench with _ | bx <;>
    simp only [shallowStep, if_neg hnstart, if_neg hnext, if_pos hend] <;>
    (try split_ifs) <;> (try simp_all) <;> (try split_ifs) <;>
    (try simp_all) <;> (try linarith)

theorem runFrames_fps_zero (idx : Nat) (st : RunState) (recs : List FrameRecord)
    (inp : FrameInput) (rest : List FrameInput) :
    runFrames 0 idx st recs (inp :: rest) =
      Except.error "ZeroDivisionError: division by zero" := by
  rw [runFrames]
  simp [makeRecord, frameTimestamp]

/-! ### Concrete frames used as witnesses and counterexamples -/

def poseF1 : Pose := { hip_y := 400, elbow_y := 500, shoulder_y := 300 }

def poseF2 : Pose := { hip_y := 400, elbow_y := 100, shoulder_y := 300 }

/-- A frame with a bar 100 below the shoulder and no bench. -/
def frameF1 : FrameInput :=
  { bench_box := none, bar_box := some { top := 380, bottom := 400 }, pose := poseF1 }

/-- A frame with a bar 290 below the shoulder and a bench at the top edge 0. -/
def frameF2 : FrameInput :=
  { bench_box := some { top := 0, bottom := 50 },
    bar_box := some { top := 570, bottom := 590 }, pose := poseF2 }

/-- The tracker state `frameF1` leaves behind: a rep in progress. -/
def leftoverTracker : TrackerState :=
  { is_in_rep := true, min_bar_shoulder_dist := 100, min_elbow_y_at_bottom := 500 }

/-! ### Claims -/

/-- Claim C1 (counterexample): the claim says an analysis run with `fps = 0`
raises no division error; but the per-frame `timestamp = frame_idx / fps`
(line 261) is unguarded, so the concrete run with `fps = 0` and one frame
aborts with `ZeroDivisionError`. -/
theorem C1_counterexample_fps_zero_raises :
    analyze_video initTracker 0 7 [frameF1] =
      Except.error "ZeroDivisionError: division by zero" := by
  rw [analyze_video, runFrames_fps_zero]

/-- Claim C1 (amended): the final `video_duration` is guarded — it equals
`total_frames / fps` when `fps > 0` and `0` otherwise, and a `fps = 0` run
with no frames completes with `video_duration = 0`; but the per-frame
`timestamp = frame_idx / fps` is NOT guarded, so a `fps = 0` run with at
least one frame raises a division error instead of completing. -/
theorem C1_video_duration_guarded (tr : TrackerState) (fps : ℤ) (total : Nat)
    (frames : List FrameInput) :
    (∀ res, analyze_video tr fps total frames = Except.ok res →
        res.1.video_duration = (if fps > 0 then (total : ℚ) / (fps : ℚ) else 0)) ∧
    (fps = 0 → frames = [] →
        ∃ res, analyze_video tr fps total frames = Except.ok res ∧
          res.1.video_duration = 0) ∧
    (fps = 0 → ∀ inp rest, frames = inp :: rest →
        analyze_video tr fps total frames =
          Except.error "ZeroDivisionError: division by zero") := by
  refine ⟨fun res h => (analyze_video_ok_spec tr fps total frames res h).2.2.1, ?_, ?_⟩
  · rintro rfl rfl
    refine ⟨_, rfl, ?_⟩
    simp [analyze_video, runFrames]
  · rintro rfl inp rest rfl
    rw [analyze_video, runFrames_fps_zero]

/-- Claim C1 (witness): the guarded-duration theorem applied to the concrete
run with `fps = 0` and one frame. -/
theorem C1_video_duration_guarded_witness :
    analyze_video initTracker 0 9 [frameF1] =
      Except.error "ZeroDivisionError: division by zero" :=
  (C1_video_duration_guarded initTracker 0 9 [frameF1]).2.2 rfl frameF1 [] rfl

/-- Claim C2: `hip_lift_status` and `shallow_rep_status` start at OK and are
one-way latches: once FAIL on some frame they stay FAIL on every later frame
and in the final result, regardless of later compliant frames. -/
theorem C2_sticky_fault_latches (st : RunState) (inp : FrameInput)
    (frames : List FrameInput) (tr : TrackerState) :
    ((initRunState tr).hip_lift_status = STATUS_OK ∧
     (initRunState tr).shallow_rep_status = STATUS_OK) ∧
    (st.hip_lift_status = STATUS_FAIL_HIP →
      (processFrame st inp).hip_lift_status = STATUS_FAIL_HIP) ∧
    (st.shallow_rep_status = STATUS_FAIL_SHALLOW →
      (processFrame st inp).shallow_rep_status = STATUS_FAIL_SHALLOW) ∧
    (st.hip_lift_status = STATUS_FAIL_HIP →
      (frames.foldl processFrame st).hip_lift_status = STATUS_FAIL_HIP) ∧
    (st.shallow_rep_status = STATUS_FAIL_SHALLOW →
      (frames.foldl processFrame st).shallow_rep_status = STATUS_FAIL_SHALLOW) ∧
    (∀ fps total res, analyze_video tr fps total frames = Except.ok res →
      res.1.hip_lift_status =
        (frames.foldl processFrame (initRunState tr)).hip_lift_status ∧
      res.1.shallow_rep_status =
        (frames.foldl processFrame (initRunState tr)).shallow_rep_status) :=
  ⟨⟨rfl, rfl⟩, processFrame_hip_sticky st inp, processFrame_shallow_sticky st inp,
   foldl_hip_sticky frames st, foldl_shallow_sticky frames st,
   fun fps total res h =>
     ⟨(analyze_video_ok_spec tr fps total frames res h).1,
      (analyze_video_ok_spec tr fps total frames res h).2.1⟩⟩

/-- A run state with both faults already latched, for the C2 witness. -/
def stBothFail : RunState :=
  { initRunState initTracker with
      hip_lift_status := STATUS_FAIL_HIP
      shallow_rep_status := STATUS_FAIL_SHALLOW }

/-- Claim C2 (witness): the latches hold at a concrete failed state through
a concrete compliant frame. -/
theorem C2_sticky_fault_latches_witness :
    (processFrame stBothFail frameF1).hip_lift_status = STATUS_FAIL_HIP ∧
    ([frameF1].foldl processFrame stBothFail).shallow_rep_status =
      STATUS_FAIL_SHALLOW :=
  ⟨(C2_sticky_fault_latches stBothFail frameF1 [frameF1] initTracker).2.1 rfl,
   (C2_sticky_fault_latches stBothFail frameF1 [frameF1] initTracker).2.2.2.2.1 rfl⟩

/-- Claim C3: the three transition guards of the rep state machine are
pairwise mutually exclusive, a start requires the distance to fall 30 below
the tracked minimum, an end requires it to rise 30 above it, a frame that
starts a rep does not also judge-and-end one, and a frame firing no rule
leaves the state unchanged. -/
theorem C3_transitions_mutually_exclusive (tr : TrackerState) (d : ℚ)
    (st : RunState) (p : Pose) (s bb : ℚ) (bench : Option Box) :
    (¬(startCond tr d ∧ extendCond tr d)) ∧
    (¬(startCond tr d ∧ endCond tr d)) ∧
    (¬(extendCond tr d ∧ endCond tr d)) ∧
    (startCond tr d → d < tr.min_bar_shoulder_dist - 30 ∧ tr.is_in_rep = false) ∧
    (endCond tr d → d > tr.min_bar_shoulder_dist + 30 ∧ tr.is_in_rep = true) ∧
    (startCond st.tracker (|bb - p.shoulder_y|) →
      (shallowStep st p s bb bench).tracker =
        { is_in_rep := true, min_bar_shoulder_dist := |bb - p.shoulder_y|,
          min_elbow_y_at_bottom := s } ∧
      (shallowStep st p s bb bench).shallow_rep_status = st.shallow_rep_status) ∧
    (¬startCond st.tracker (|bb - p.shoulder_y|) →
     ¬extendCond st.tracker (|bb - p.shoulder_y|) →
     ¬endCond st.tracker (|bb - p.shoulder_y|) →
      shallowStep st p s bb bench = st) := by
  refine ⟨?_, ?_, ?_, ?_, ?_, ?_, ?_⟩
  · rintro ⟨⟨h1, -⟩, ⟨h2, -⟩⟩
    exact h1 (by simpa using h2)
  · rintro ⟨⟨h1, -⟩, ⟨h2, -⟩⟩
    exact h1 (by simpa using h2)
  · rintro ⟨⟨-, h1⟩, ⟨-, h2⟩⟩
    linarith
  · rintro ⟨h1, h2⟩
    exact ⟨h2, by simpa using h1⟩
  · rintro ⟨h1, h2⟩
    exact ⟨h2, by simpa using h1⟩
  · intro hs
    simp [shallowStep, if_pos hs]
  · intro h1 h2 h3
    simp [shallowStep, if_neg h1, if_neg h2, if_neg h3]

/-- Claim C3 (witness): at the concrete idle tracker and a bar-shoulder
distance of 100, the start rule fires, sets the tracked minimum and does not
also end the rep. -/
theorem C3_transitions_mutually_exclusive_witness :
    (shallowStep (initRunState initTracker) poseF1 500 400 none).tracker =
      { is_in_rep := true, min_bar_shoulder_dist := |(400 : ℚ) - poseF1.shoulder_y|,
        min_elbow_y_at_bottom := 500 } ∧
    (shallowStep (initRunState initTracker) poseF1 500 400 none).shallow_rep_status =
      (initRunState initTracker).shallow_rep_status :=
  (C3_transitions_mutually_exclusive initTracker 100 (initRunState initTracker)
    poseF1 500 400 none).2.2.2.2.2.1 (by constructor <;> norm_num [initRunState, initTracker, poseF1])

/-- Claim C4: the baseline and its derived threshold are set exactly on the
first frame where both a hip coordinate and a bench box are present, are
never overwritten afterwards, stay unset while either detection is missing,
and the calibration frame itself never latches the hip-lift flag. -/
theorem C4_single_calibration (st : RunState) (inp : FrameInput) :
    (∀ b, st.baseline_hip_bench_dist = some b →
      (processFrame st inp).baseline_hip_bench_dist = some b) ∧
    (∀ b t, st.baseline_hip_bench_dist = some b → st.dynamic_hip_threshold = some t →
      (processFrame st inp).dynamic_hip_threshold = some t) ∧
    (st.baseline_hip_bench_dist = none →
      ∀ p bx, inp.pose = some p → inp.bench_box = some bx →
        (processFrame st inp).baseline_hip_bench_dist = some (|p.hip_y - bx.top|) ∧
        (processFrame st inp).dynamic_hip_threshold =
          some (|p.hip_y - bx.top| * HIP_LIFT_RATIO) ∧
        (processFrame st inp).hip_lift_status = st.hip_lift_status) ∧
    (st.baseline_hip_bench_dist = none → (inp.pose = none ∨ inp.bench_box = none) →
      (processFrame st inp).baseline_hip_bench_dist = none) := by
  refine ⟨fun b hb => processFrame_baseline_some st inp b hb,
    fun b t hb ht => processFrame_threshold_some st inp b t ht hb, ?_, ?_⟩
  · intro hnone p bx hp hbx
    have hcal := hipLiftStep_calibrate
      { st with elbow_y_buffer := pushWindow st.elbow_y_buffer p.elbow_y }
      (|p.hip_y - bx.top|) (abs_nonneg _) (by simpa using hnone)
    rcases hr : inp.bar_box with _ | bar <;>
      simp only [processFrame, hp, hbx, hr] <;>
      simp [shallowStep_baseline, shallowStep_threshold, shallowStep_hip,
        hcal.1, hcal.2.1, hcal.2.2]
  · intro hnone hmiss
    rcases hmiss with hp | hbx
    · simp [processFrame_no_pose st inp hp, hnone]
    · rw [(processFrame_no_bench_hip_state st inp hbx).1, hnone]

/-- Claim C4 (witness): calibration happens at the concrete first frame that
has both detections, and a frame without a bench leaves the baseline unset. -/
theorem C4_single_calibration_witness :
    (processFrame (initRunState initTracker) frameF2).baseline_hip_bench_dist =
      some (|poseF2.hip_y - (0 : ℚ)|) ∧
    (processFrame (initRunState initTracker) frameF2).hip_lift_status =
      (initRunState initTracker).hip_lift_status ∧
    (processFrame (initRunState initTracker) frameF1).baseline_hip_bench_dist = none :=
  ⟨((C4_single_calibration (initRunState initTracker) frameF2).2.2.1 rfl poseF2
      { top := 0, bottom := 50 } rfl rfl).1,
   ((C4_single_calibration (initRunState initTracker) frameF2).2.2.1 rfl poseF2
      { top := 0, bottom := 50 } rfl rfl).2.2,
   (C4_single_calibration (initRunState initTracker) frameF1).2.2.2 rfl (Or.inr rfl)⟩

/-- Claim C5: on a frame where the end-and-judge rule fires, the shallow-rep
fault latches exactly when a bench box is present and the tracked bottom
elbow exceeds the bench top plus the shallow threshold, no fault is raised
when no bench box is present, and the tracker is reset to the sentinels
`(false, 1000, 2000)` regardless of the judgment outcome. -/
theorem C5_end_and_judge (st : RunState) (p : Pose) (bar : Box) (inp : FrameInput)
    (hp : inp.pose = some p) (hb : inp.bar_box = some bar)
    (hend : endCond st.tracker (|bar.bottom - p.shoulder_y|)) :
    (processFrame st inp).tracker.is_in_rep = false ∧
    (processFrame st inp).tracker.min_bar_shoulder_dist = 1000 ∧
    (processFrame st inp).tracker.min_elbow_y_at_bottom = 2000 ∧
    (inp.bench_box = none →
      (processFrame st inp).shallow_rep_status = st.shallow_rep_status) ∧
    (∀ bx, inp.bench_box = some bx →
      (processFrame st inp).shallow_rep_status =
        (if st.tracker.min_elbow_y_at_bottom > bx.top + dynamicShallowThreshold p then
          STATUS_FAIL_SHALLOW
        else st.shallow_rep_status)) := by
  rcases hbench : inp.bench_box with _ | bx
  · have hpf : processFrame st inp =
        shallowStep { st with elbow_y_buffer := pushWindow st.elbow_y_buffer p.elbow_y }
          p (listMean (pushWindow st.elbow_y_buffer p.elbow_y)) bar.bottom none := by
      simp [processFrame, hp, hb, hbench]
    have hse := shallowStep_end
      { st with elbow_y_buffer := pushWindow st.elbow_y_buffer p.elbow_y }
      p (listMean (pushWindow st.elbow_y_buffer p.elbow_y)) bar.bottom none
      (by simpa using hend)
    refine ⟨?_, ?_, ?_, ?_, ?_⟩
    · rw [hpf, hse.1]; rfl
    · rw [hpf, hse.1]; rfl
    · rw [hpf, hse.1]; rfl
    · intro _
      rw [hpf, hse.2.1 rfl]
    · intro bx hbx
      exact absurd hbx (by simp)
  · have hpf : processFrame st inp =
        shallowStep
          (hipLiftStep
            { st with elbow_y_buffer := pushWindow st.elbow_y_buffer p.elbow_y }
            (|p.hip_y - bx.top|))
          p (listMean (pushWindow st.elbow_y_buffer p.elbow_y)) bar.bottom (some bx) := by
      simp [processFrame, hp, hb, hbench]
    have htr : (hipLiftStep
        { st with elbow_y_buffer := pushWindow st.elbow_y_buffer p.elbow_y }
        (|p.hip_y - bx.top|)).tracker = st.tracker := by
      rw [hipLiftStep_tracker]
    have hsh : (hipLiftStep
        { st with elbow_y_buffer := pushWindow st.elbow_y_buffer p.elbow_y }
        (|p.hip_y - bx.top|)).shallow_rep_status = st.shallow_rep_status := by
      rw [hipLiftStep_shallow]
    have hse := shallowStep_end
      (hipLiftStep
        { st with elbow_y_buffer := pushWindow st.elbow_y_buffer p.elbow_y }
        (|p.hip_y - bx.top|))
      p (listMean (pushWindow st.elbow_y_buffer p.elbow_y)) bar.bottom (some bx)
      (by rw [htr]; exact hend)
    refine ⟨?_, ?_, ?_, ?_, ?_⟩
    · rw [hpf, hse.1]; rfl
    · rw [hpf, hse.1]; rfl
    · rw [hpf, hse.1]; rfl
    · intro hc
      exact absurd hc (by simp)
    · intro bx2 hbx2
      rw [Option.some.injEq] at hbx2
      subst hbx2
      rw [hpf, hse.2.2 bx rfl, htr, hsh]

/-- Claim C5 (witness): from the concrete in-rep tracker left by `frameF1`,
the end-of-rep frame `frameF2` latches the shallow fault and resets the
tracker sentinels. -/
theorem C5_end_and_judge_witness :
    (processFrame (initRunState leftoverTracker) frameF2).tracker.is_in_rep = false ∧
    (processFrame (initRunState leftoverTracker) frameF2).tracker.min_bar_shoulder_dist
      = 1000 ∧
    (processFrame (initRunState leftoverTracker) frameF2).shallow_rep_status =
      (if (500 : ℚ) > (0 : ℚ) + dynamicShallowThreshold poseF2 then STATUS_FAIL_SHALLOW
       else (initRunState leftoverTracker).shallow_rep_status) := by
  have h := C5_end_and_judge (initRunState leftoverTracker) poseF2
    { top := 570, bottom := 590 } frameF2 rfl rfl
    (by constructor <;> norm_num [initRunState, leftoverTracker, poseF2])
  exact ⟨h.1, h.2.1, h.2.2.2.2 { top := 0, bottom := 50 } rfl⟩

/-- Claim C6 (counterexample): the spec reads the torso-length computation as
testing presence, so with both coordinates present it should always be
`|shoulder_y - hip_y|`; but the code tests truthiness, and at the present
coordinates `shoulder_y = 0`, `hip_y = 50` it yields the fallback 100, not
`|0 - 50| = 50`. -/
theorem C6_counterexample_truthy_torso :
    torsoLength { hip_y := 50, elbow_y := 1, shoulder_y := 0 } = 100 ∧
    ¬torsoLength { hip_y := 50, elbow_y := 1, shoulder_y := 0 } =
      |(0 : ℚ) - 50| := by
  constructor
  · norm_num [torsoLength]
  · norm_num [torsoLength]

/-- Claim C6 (amended): on every frame where the shallow-rep threshold is
computed both coordinates are present; `torso_length` equals
`|shoulder_y - hip_y|` whenever both are nonzero and equals the fixed
fallback 100 when either equals exactly 0 (the code tests truthiness, not
presence); the shallow threshold equals `torso_length * 0.05`. -/
theorem C6_torso_length_truthiness (p : Pose) :
    (p.shoulder_y ≠ 0 → p.hip_y ≠ 0 → torsoLength p = |p.shoulder_y - p.hip_y|) ∧
    (p.shoulder_y = 0 ∨ p.hip_y = 0 → torsoLength p = 100) ∧
    dynamicShallowThreshold p = torsoLength p * (5 / 100) := by
  refine ⟨fun hs hh => ?_, fun h => ?_, rfl⟩
  · rw [torsoLength, if_pos ⟨hs, hh⟩]
  · rcases h with h | h <;>
      [rw [torsoLength, if_neg (by simp [h])]; rw [torsoLength, if_neg (by simp [h])]]

/-- Claim C6 (witness): the amended torso-length cases at concrete poses. -/
theorem C6_torso_length_truthiness_witness :
    torsoLength poseF1 = |poseF1.shoulder_y - poseF1.hip_y| ∧
    torsoLength { hip_y := 50, elbow_y := 1, shoulder_y := 0 } = 100 :=
  ⟨(C6_torso_length_truthiness poseF1).1 (by norm_num [poseF1]) (by norm_num [poseF1]),
   (C6_torso_length_truthiness { hip_y := 50, elbow_y := 1, shoulder_y := 0 }).2.1
     (Or.inl rfl)⟩

/-- Claim C7: the hip-lift check changes no hip-lift state on a frame where
the hip coordinate (pose) or the bench box is absent; consequently a run
whose frames never contain a bench box keeps `hip_lift_status` at OK
throughout and in the final result, regardless of hip motion. -/
theorem C7_hip_check_gated_on_bench (st : RunState) (inp : FrameInput)
    (tr : TrackerState) (fps : ℤ) (total : Nat) (frames : List FrameInput) :
    ((inp.pose = none ∨ inp.bench_box = none) →
      (processFrame st inp).baseline_hip_bench_dist = st.baseline_hip_bench_dist ∧
      (processFrame st inp).dynamic_hip_threshold = st.dynamic_hip_threshold ∧
      (processFrame st inp).hip_lift_status = st.hip_lift_status) ∧
    ((∀ f ∈ frames, f.bench_box = none) →
      (frames.foldl processFrame (initRunState tr)).hip_lift_status = STATUS_OK ∧
      ∀ res, analyze_video tr fps total frames = Except.ok res →
        res.1.hip_lift_status = STATUS_OK) := by
  constructor
  · rintro (hp | hb)
    · simp [processFrame_no_pose st inp hp]
    · exact processFrame_no_bench_hip_state st inp hb
  · intro hall
    have hfold : (frames.foldl processFrame (initRunState tr)).hip_lift_status =
        STATUS_OK := foldl_no_bench_hip_status frames (initRunState tr) hall
    refine ⟨hfold, fun res h => ?_⟩
    rw [(analyze_video_ok_spec tr fps total frames res h).1, hfold]

/-- A frame with hip motion but no bench: pose present, bar present. -/
def frameNoBench : FrameInput :=
  { bench_box := none, bar_box := some { top := 100, bottom := 120 },
    pose := some { hip_y := 999, elbow_y := 500, shoulder_y := 300 } }

/-- Claim C7 (witness): a concrete all-frames-without-bench run keeps the
hip-lift status OK through the fold and in the final result. -/
theorem C7_hip_check_gated_on_bench_witness :
    ([frameF1, frameNoBench].foldl processFrame
      (initRunState initTracker)).hip_lift_status = STATUS_OK ∧
    (processFrame (initRunState initTracker) frameF1).hip_lift_status =
      (initRunState initTracker).hip_lift_status :=
  ⟨((C7_hip_check_gated_on_bench (initRunState initTracker) frameF1 initTracker 30 2
      [frameF1, frameNoBench]).2 (by intro f hf; fin_cases hf <;> rfl)).1,
   ((C7_hip_check_gated_on_bench (initRunState initTracker) frameF1 initTracker 30 2
      [frameF1, frameNoBench]).1 (Or.inr rfl)).2.2⟩

/-- Claim C8: the elbow smoothing window never holds more than 5 samples,
evicts the oldest sample first when full, its mean is the arithmetic mean of
exactly the samples currently held (including partial windows), and a frame
without an elbow sample leaves the window unchanged. -/
theorem C8_smoothing_window (l : List ℚ) (x : ℚ) (st : RunState) (inp : FrameInput) :
    (pushWindow l x).length = min (l.length + 1) SMOOTHING_WINDOW_SIZE ∧
    (pushWindow l x).length ≤ SMOOTHING_WINDOW_SIZE ∧
    (l.length ≤ SMOOTHING_WINDOW_SIZE →
      pushWindow l x =
        if l.length < SMOOTHING_WINDOW_SIZE then l ++ [x] else l.tail ++ [x]) ∧
    ((pushWindow l x).length : ℚ) * listMean (pushWindow l x) = (pushWindow l x).sum ∧
    (inp.pose = none → (processFrame st inp).elbow_y_buffer = st.elbow_y_buffer) ∧
    (∀ p, inp.pose = some p →
      (processFrame st inp).elbow_y_buffer = pushWindow st.elbow_y_buffer p.elbow_y) := by
  have hlen : (pushWindow l x).length = min (l.length + 1) SMOOTHING_WINDOW_SIZE := by
    simp only [pushWindow, SMOOTHING_WINDOW_SIZE]
    split_ifs with h <;>
      simp only [List.length_drop, List.length_append, List.length_cons,
        List.length_nil] at h ⊢ <;> omega
  refine ⟨hlen, by rw [hlen]; exact min_le_right _ _, ?_, ?_, ?_, ?_⟩
  · intro hle
    rcases Nat.lt_or_ge l.length SMOOTHING_WINDOW_SIZE with hlt | hge
    · rw [if_pos hlt]
      simp only [pushWindow]
      rw [if_pos (by simp; omega)]
    · have h5 : l.length = SMOOTHING_WINDOW_SIZE := le_antisymm hle hge
      rw [if_neg (by omega)]
      simp only [pushWindow]
      rw [if_neg (by simp; omega)]
      simp only [List.length_append, List.length_cons, List.length_nil]
      have h1 : l.length + (0 + 1) - SMOOTHING_WINDOW_SIZE = 1 := by omega
      rw [h1, List.drop_append_of_le_length (by rw [h5]; norm_num [SMOOTHING_WINDOW_SIZE]),
        List.drop_one]
  · have hpos : 0 < (pushWindow l x).length := by
      rw [hlen]
      simp [SMOOTHING_WINDOW_SIZE]
    have hne : ((pushWindow l x).length : ℚ) ≠ 0 := by
      exact_mod_cast Nat.pos_iff_ne_zero.mp hpos
    rw [listMean, mul_div_cancel₀ _ hne]
  · intro hp
    rw [processFrame_no_pose st inp hp]
  · intro p hp
    rw [processFrame_buffer st inp, hp]

/-- Claim C8 (witness): the window properties at a concrete full window and
the no-pose/pose cases at concrete frames. -/
theorem C8_smoothing_window_witness :
    pushWindow [1, 2, 3, 4, 5] 6 =
      (if (5 : Nat) < SMOOTHING_WINDOW_SIZE then [1, 2, 3, 4, 5] ++ [(6 : ℚ)]
       else [(2 : ℚ), 3, 4, 5] ++ [6]) ∧
    (processFrame (initRunState initTracker)
      { bench_box := none, bar_box := none, pose := none }).elbow_y_buffer =
      (initRunState initTracker).elbow_y_buffer ∧
    (processFrame (initRunState initTracker) frameF1).elbow_y_buffer =
      pushWindow (initRunState initTracker).elbow_y_buffer poseF1.elbow_y := by
  refine ⟨?_, ?_, ?_⟩
  · have h := (C8_smoothing_window [1, 2, 3, 4, 5] 6 (initRunState initTracker)
      frameF1).2.2.1 (by norm_num [SMOOTHING_WINDOW_SIZE])
    simpa using h
  · exact (C8_smoothing_window [1] 1 (initRunState initTracker)
      { bench_box := none, bar_box := none, pose := none }).2.2.2.2.1 rfl
  · exact (C8_smoothing_window [1] 1 (initRunState initTracker) frameF1).2.2.2.2.2
      poseF1 rfl

/-- Claim C9: the rep tracker lives on the analyzer instance and is not reset
at the start of `analyze_video`; for the concrete one-frame video `frameF1`
that ends mid-rep, a second call on the same instance consuming `frameF2`
ends the leftover rep and latches the shallow fault, while the same `frameF2`
on a fresh instance starts a rep and reports no fault. -/
theorem C9_stale_tracker_across_calls :
    (analyze_video initTracker 30 1 [frameF1]).map Prod.snd =
      Except.ok leftoverTracker ∧
    leftoverTracker.is_in_rep = true ∧
    (analyze_video leftoverTracker 30 1 [frameF2]).map
      (fun r => r.1.shallow_rep_status) = Except.ok STATUS_FAIL_SHALLOW ∧
    (analyze_video initTracker 30 1 [frameF2]).map
      (fun r => r.1.shallow_rep_status) = Except.ok STATUS_OK ∧
    (analyze_video leftoverTracker 30 1 [frameF2]).map
      (fun r => r.2.is_in_rep) = Except.ok false ∧
    (analyze_video initTracker 30 1 [frameF2]).map
      (fun r => r.2.is_in_rep) = Except.ok true := by
  refine ⟨?_, rfl, ?_, ?_, ?_, ?_⟩ <;>
    norm_num [analyze_video, runFrames, makeRecord, frameTimestamp, processFrame,
      frameF1, frameF2, poseF1, poseF2, initRunState, initTracker, pushWindow,
      listMean, shallowStep, hipLiftStep, startCond, extendCond, endCond,
      leftoverTracker, recordCoord, SMOOTHING_WINDOW_SIZE, STATUS_OK,
      STATUS_FAIL_SHALLOW, HIP_LIFT_RATIO, SHALLOW_REP_RATIO, torsoLength,
      dynamicShallowThreshold, Except.map]

/-- A frame whose pose is detected but whose hip coordinate is exactly 0. -/
def frameZeroHip : FrameInput :=
  { bench_box := none, bar_box := none,
    pose := some { hip_y := 0, elbow_y := 2, shoulder_y := 3 } }

/-- Claim C10: a recorded `hip_y`, `elbow_y` or `shoulder_y` is stored as
null exactly when the coordinate is absent OR equals exactly 0 (the code
tests truthiness, not presence), so a null coordinate in a frame record does
not imply the landmark was absent: a present zero coordinate is recorded as
null too. -/
theorem C10_zero_coordinate_recorded_null :
    (∀ v : Option ℚ, recordCoord v = none ↔ (v = none ∨ v = some 0)) ∧
    (∃ inp : FrameInput, ∃ r : FrameRecord,
      inp.pose.isSome = true ∧ makeRecord 1 30 inp = some r ∧ r.hip_y = none) := by
  constructor
  · intro v
    rcases v with _ | x
    · simp [recordCoord]
    · by_cases hx : x = 0 <;> simp [recordCoord, hx]
  · have hrec : makeRecord 1 30 frameZeroHip =
        some { frame := 1, timestamp := (1 : ℚ) / 30, hip_y := none,
               elbow_y := some 2, shoulder_y := some 3,
               bench_detected := false, bar_detected := false } := by
      norm_num [makeRecord, frameTimestamp, frameZeroHip, recordCoord]
    exact ⟨frameZeroHip, _, rfl, hrec, rfl⟩
